import Mathlib

/-!
Shallow embedding of the ingestion-and-persistence core of the
`factors-rs` service (Artemis-xyz/portfolio-analytics), together with
theorems settling the specification claims about it.

Conventions used throughout:
* CSV files are modelled at the record level: a file is a list of rows,
  each row a list of string fields (the `csv` crate round-trips records
  faithfully, so byte-level quoting is not modelled).
* The filesystem is an association list from path to file; insertion
  shadows earlier entries, modelling create/truncate-on-write.
* Rust `f64` values together with `f64::to_string` / `str::parse::<f64>`
  are modelled by an abstract value type `V` with a printer `serV` and a
  parser `parseV`; claims that need the Rust round-trip guarantee take it
  as a hypothesis, instantiated at a concrete type in witnesses.
* Fallible Rust code returning `crate::error::Result` is modelled with
  `Except Err`; a Rust panic (e.g. slice index out of bounds) is modelled
  by the extra variant `Err.panicked`.
* Network I/O is modelled by explicit oracles describing the outcome of
  each request, and functions additionally return the trace of requests
  they issued.
-/

/-- The error variants of `src/error.rs` that the modelled code can
produce, plus `panicked` for Rust panics (which are not `Error` values
but must be distinguished from ordinary returns). -/
inductive Err where
  | invalidInput (msg : String)
  | notFound (msg : String)
  | dataFetch (msg : String)
  | csvErr (msg : String)
  | polars (msg : String)
  | panicked (msg : String)
  deriving DecidableEq, Repr

/-- A CSV file at record granularity: rows of string fields. -/
abbrev CsvFile := List (List String)

/-- The logs directory: an association list path ↦ file.  The head entry
for a path shadows older ones, so writing is consing. -/
abbrev FS := List (String × CsvFile)

/-- Read a file, `none` when the path does not exist. -/
def fsGet (fs : FS) (path : String) : Option CsvFile :=
  (fs.find? (fun e => e.1 == path)).map (fun e => e.2)

/-- Create-or-truncate write of a whole file (`csv::Writer::from_path`). -/
def fsPut (fs : FS) (path : String) (file : CsvFile) : FS :=
  (path, file) :: fs

/-- Path of the per-(factor, run) time-series file,
`format!("{}_{}_returns.csv", factor, run_id)`. -/
def ts_path (factor run_id : String) : String :=
  factor ++ "_" ++ run_id ++ "_returns.csv"

/-- Path of the per-factor summary file, `format!("{}.csv", factor)`. -/
def factor_path (factor : String) : String :=
  factor ++ ".csv"

/-- The header row written by `save_time_series`. -/
def ts_header : List String := ["date", "return", "cumulative_return"]

/-- The row-writing loop of `save_time_series`
(`for i in 0..dates.len() { write_record([dates[i], returns[i], cum[i]]) }`):
returns the rows actually written and `some err` when the loop panics with
an index out of bounds (the slice indexing `returns[i]` / `cum[i]` has no
length guard in the source). -/
def save_rows {V : Type} (serV : V → String) :
    List String → List V → List V → List (List String) × Option Err
  | [], _, _ => ([], none)
  | _ :: _, [], _ => ([], some (.panicked "index out of bounds"))
  | _ :: _, _ :: _, [] => ([], some (.panicked "index out of bounds"))
  | d :: ds, r :: rs, c :: cs =>
      let rest := save_rows serV ds rs cs
      ([d, serV r, serV c] :: rest.1, rest.2)

/-- `CsvLogger::save_time_series`: creates/truncates the per-(factor, run)
file, writes the header, then one row per date.  The file (with whatever
was written before a panic) is present in the resulting filesystem either
way, because `Writer::from_path` creates the file up front and the
writer's buffer is flushed on drop. -/
def save_time_series {V : Type} (serV : V → String) (fs : FS)
    (factor run_id : String) (dates : List String)
    (returns cumulative_returns : List V) : Except Err Unit × FS :=
  let written := save_rows serV dates returns cumulative_returns
  let fs2 := fsPut fs (ts_path factor run_id) (ts_header :: written.1)
  (match written.2 with
   | none => .ok ()
   | some e => .error e, fs2)

/-- Field access of a CSV record deserialized to `HashMap<String, String>`:
the map is built by pairing the header row with the record's fields. -/
def header_lookup (header row : List String) (name : String) : Option String :=
  ((header.zip row).find? (fun p => p.1 == name)).map (fun p => p.2)

/-- The row loop of `load_time_series`: each record whose `date` field is
present and whose `return` and `cumulative_return` fields parse is pushed
onto the three vectors; any other record is skipped whole.  A record whose
field count differs from the header errors the entire read (`result?` on a
non-flexible `csv::Reader`). -/
def lts_rows {V : Type} (parseV : String → Option V) (header : List String) :
    List (List String) → Except Err (List String × List V × List V)
  | [] => .ok ([], [], [])
  | row :: rest =>
      if row.length ≠ header.length then
        .error (.csvErr "record length mismatch")
      else
        match lts_rows parseV header rest with
        | .error e => .error e
        | .ok (ds, rs, cs) =>
            match header_lookup header row "date",
                  (header_lookup header row "return").bind parseV,
                  (header_lookup header row "cumulative_return").bind parseV with
            | some d, some r, some c => .ok (d :: ds, r :: rs, c :: cs)
            | _, _, _ => .ok (ds, rs, cs)

/-- `CsvLogger::load_time_series`: `NotFound` when the per-(factor, run)
file is absent, otherwise read the header row and fold the records. -/
def load_time_series {V : Type} (parseV : String → Option V) (fs : FS)
    (factor run_id : String) : Except Err (List String × List V × List V) :=
  match fsGet fs (ts_path factor run_id) with
  | none => .error (.notFound
      ("Time series file not found: " ++ ts_path factor run_id))
  | some [] => .ok ([], [], [])
  | some (header :: rows) => lts_rows parseV header rows

/-- `models::FactorPerformance`, value-typed fields abstracted to `V`. -/
structure FactorPerformance (V : Type) where
  run_id : String
  factor : String
  breakpoint : Option V
  min_assets : Option Nat
  weighting_method : Option String
  cumulative_returns : Option V
  annualized_return : Option V
  years : Option V
  sharpe_ratio : Option V
  sortino_ratio : Option V
  long_only_returns : Option V
  short_only_returns : Option V
  start_date : Option String
  end_date : Option String
  deriving DecidableEq, Repr

/-- One record of `load_factor_logs`: missing or unparsable optional
fields degrade to `none`; `run_id` defaults to the empty string and
`factor` to the queried factor name. -/
def parse_performance {V : Type} (parseV : String → Option V)
    (factor : String) (header row : List String) : FactorPerformance V :=
  { run_id := (header_lookup header row "run_id").getD ""
    factor := (header_lookup header row "factor").getD factor
    breakpoint := (header_lookup header row "breakpoint").bind parseV
    min_assets := (header_lookup header row "min_assets").bind String.toNat?
    weighting_method := header_lookup header row "weighting_method"
    cumulative_returns := (header_lookup header row "cumulative_returns").bind parseV
    annualized_return := (header_lookup header row "annualized_return").bind parseV
    years := (header_lookup header row "years").bind parseV
    sharpe_ratio := (header_lookup header row "sharpe_ratio").bind parseV
    sortino_ratio := (header_lookup header row "sortino_ratio").bind parseV
    long_only_returns := (header_lookup header row "long_only_returns").bind parseV
    short_only_returns := (header_lookup header row "short_only_returns").bind parseV
    start_date := header_lookup header row "start_date"
    end_date := header_lookup header row "end_date" }

/-- The row loop of `load_factor_logs`. -/
def lfl_rows {V : Type} (parseV : String → Option V) (factor : String)
    (header : List String) :
    List (List String) → Except Err (List (FactorPerformance V))
  | [] => .ok []
  | row :: rest =>
      if row.length ≠ header.length then
        .error (.csvErr "record length mismatch")
      else
        match lfl_rows parseV factor header rest with
        | .error e => .error e
        | .ok ps => .ok (parse_performance parseV factor header row :: ps)

/-- `CsvLogger::load_factor_logs`: an absent per-factor summary file
yields `Ok([])`, not an error. -/
def load_factor_logs {V : Type} (parseV : String → Option V) (fs : FS)
    (factor : String) : Except Err (List (FactorPerformance V)) :=
  match fsGet fs (factor_path factor) with
  | none => .ok []
  | some [] => .ok []
  | some (header :: rows) => lfl_rows parseV factor header rows

/-! ## Coinbase price fetcher (`src/data/coinbase.rs`) -/

/-- A candle as deserialized from the Coinbase response: all fields are
string-typed (`open`/`high`/`low` are accepted but never surfaced; Lean
reserves `open`, hence the trailing underscore). -/
structure Candle where
  start : String
  open_ : String
  high : String
  low : String
  close : String
  volume : String
  deriving DecidableEq, Repr

/-- One row of the per-product DataFrame: `date` is the candle's start
timestamp converted to milliseconds, `price` the close, `volume` the
24h volume. -/
structure PriceRow (V : Type) where
  date : Int
  price : V
  volume : V
  deriving DecidableEq, Repr

/-- Parsing of one candle's fields inside `candles_to_dataframe`:
`start.parse::<i64>()`, `close.parse::<f64>()`, `volume.parse::<f64>()`,
each failure mapped to a `DataFetch` error; the timestamp is scaled to
milliseconds.  The numeric parsers (`parseTs` for `i64`, `parseF` for
`f64`) are abstract parameters of the embedding. -/
def parse_candle {V : Type} (parseTs : String → Option Int)
    (parseF : String → Option V) (c : Candle) :
    Except Err (PriceRow V) :=
  match parseTs c.start with
  | none => .error (.dataFetch "Invalid timestamp")
  | some ts =>
      match parseF c.close with
      | none => .error (.dataFetch "Invalid price")
      | some price =>
          match parseF c.volume with
          | none => .error (.dataFetch "Invalid volume")
          | some vol => .ok ⟨ts * 1000, price, vol⟩

/-- The parsing loop of `candles_to_dataframe`: candles are parsed in
order and the first failing field aborts the whole conversion. -/
def parse_candles {V : Type} (parseTs : String → Option Int)
    (parseF : String → Option V) :
    List Candle → Except Err (List (PriceRow V))
  | [] => .ok []
  | c :: cs =>
      match parse_candle parseTs parseF c with
      | .error e => .error e
      | .ok r =>
          match parse_candles parseTs parseF cs with
          | .error e => .error e
          | .ok rs => .ok (r :: rs)

/-- `CoinbaseClient::candles_to_dataframe`: parse every candle (the first
failing field aborts the conversion), then run the parsed rows through
the Polars pipeline `sort("date", SortOptions::default())` followed by
`unique(["date"], UniqueKeepStrategy::First, None)`.  That pipeline is
only partly specified by the library: the sort is unstable
(`maintain_order: false`, so the relative order of equal-date rows is
not fixed) and `DataFrame::unique` — unlike `unique_stable` — does not
maintain the row order of its output.  The embedding therefore takes the
post-parse pipeline as an explicit behavior parameter `su` (an admissible
`su` returns one input row per distinct input date, in some order) rather
than committing to tie-order or output-order choices the library does not
promise; `su` is never reached when parsing fails. -/
def candles_to_dataframe {V : Type} (parseTs : String → Option Int)
    (parseF : String → Option V)
    (su : List (PriceRow V) → List (PriceRow V))
    (candles : List Candle) : Except Err (List (PriceRow V)) :=
  match parse_candles parseTs parseF candles with
  | .error e => .error e
  | .ok rows => .ok (su rows)

/-- Outcome of one HTTP attempt inside `fetch_candles_page`: the request
either transport-fails, returns a non-success status, returns a body that
does not deserialize as `CandlesResponse`, or succeeds with a candle
list. -/
inductive Attempt where
  | success (candles : List Candle)
  | transportErr
  | badStatus
  | badBody
  deriving DecidableEq, Repr

/-- Whether the attempt is one of the three failure outcomes. -/
def Attempt.isFail : Attempt → Bool
  | .success _ => false
  | _ => true

/-- `max_attempts = 3` in `fetch_candles_page`. -/
def max_attempts : Nat := 3

/-- The retry loop of `fetch_candles_page` over an attempt oracle
(`att n` is the outcome of the attempt made when the `attempts` counter
equals `n`).  Returns the result together with the list of backoff delays
induced, in milliseconds (`100 * 2^attempts` after the counter is
incremented); the inter-request rate-limit delay is not part of this
list. -/
def fetch_page_loop (att : Nat → Attempt) (product_id : String)
    (attempts : Nat) : Except Err (List Candle) × List Nat :=
  match att attempts with
  | .success cs => (.ok cs, [])
  | .badBody =>
      if attempts ≥ max_attempts - 1 then
        (.error (.dataFetch "Failed to parse Coinbase response"), [])
      else
        let rest := fetch_page_loop att product_id (attempts + 1)
        (rest.1, 100 * 2 ^ (attempts + 1) :: rest.2)
  | .badStatus =>
      if attempts ≥ max_attempts - 1 then
        (.error (.dataFetch ("Coinbase API error for " ++ product_id)), [])
      else
        let rest := fetch_page_loop att product_id (attempts + 1)
        (rest.1, 100 * 2 ^ (attempts + 1) :: rest.2)
  | .transportErr =>
      if attempts ≥ max_attempts - 1 then
        (.error (.dataFetch ("Failed to fetch candles for " ++ product_id)), [])
      else
        let rest := fetch_page_loop att product_id (attempts + 1)
        (rest.1, 100 * 2 ^ (attempts + 1) :: rest.2)
termination_by max_attempts - 1 - attempts
decreasing_by
  all_goals simp [max_attempts] at *
  all_goals omega

/-- `CoinbaseClient::fetch_candles_page`: the retry loop entered with the
attempt counter at 0. -/
def fetch_candles_page (att : Nat → Attempt) (product_id : String) :
    Except Err (List Candle) × List Nat :=
  fetch_page_loop att product_id 0

/-- `max_candles_per_request = 300` (the provider's maximum window). -/
def max_candles_per_request : Int := 300

/-- The pagination loop of `get_candles` over a per-window attempt oracle
(`net s e` is the attempt oracle for the window `[s, e]`).  Dates are
modelled as integer day numbers.  Accumulates the candles of successful
pages in page order (a failed window is logged and dropped) and the trace
of requested windows. -/
def get_candles_loop (net : Int → Int → Nat → Attempt) (product_id : String)
    (end_date : Int) (current_start : Int) :
    List Candle × List (Int × Int) :=
  if _h : current_start ≤ end_date then
    let current_end := min (current_start + (max_candles_per_request - 1)) end_date
    let page := fetch_candles_page (net current_start current_end) product_id
    let got := match page.1 with
      | .ok cs => cs
      | .error _ => []
    let rest := get_candles_loop net product_id end_date (current_end + 1)
    (got ++ rest.1, (current_start, current_end) :: rest.2)
  else ([], [])
termination_by (end_date + 1 - current_start).toNat
decreasing_by
  simp [max_candles_per_request]
  omega

/-- `CoinbaseClient::get_candles`: paginate, collect surviving pages'
candles, then (unless nothing survived, in which case an empty frame is
returned) convert them all at once with `candles_to_dataframe`.  The
second component is the trace of page-request windows. -/
def get_candles {V : Type} (parseTs : String → Option Int)
    (parseF : String → Option V)
    (su : List (PriceRow V) → List (PriceRow V))
    (net : Int → Int → Nat → Attempt) (product_id : String)
    (start_date end_date : Int) :
    Except Err (List (PriceRow V)) × List (Int × Int) :=
  let fetched := get_candles_loop net product_id end_date start_date
  if fetched.1.isEmpty then (.ok [], fetched.2)
  else (candles_to_dataframe parseTs parseF su fetched.1, fetched.2)

/-- The window list produced by the pagination arithmetic of
`get_candles`, taken on its own. -/
def win_list (current_start end_date : Int) : List (Int × Int) :=
  if _h : current_start ≤ end_date then
    let current_end := min (current_start + (max_candles_per_request - 1)) end_date
    (current_start, current_end) :: win_list (current_end + 1) end_date
  else []
termination_by (end_date + 1 - current_start).toNat
decreasing_by
  simp [max_candles_per_request]
  omega

/-- The inclusive day range `[a, b]` as a list of day numbers. -/
def dayRange (a b : Int) : List Int :=
  if _h : a ≤ b then a :: dayRange (a + 1) b else []
termination_by (b + 1 - a).toNat
decreasing_by
  omega

/-! ## Artemis metrics fetcher (`src/data/artemis.rs`) -/

/-- One `{date, val}` data point of the nested metrics response. -/
structure MetricPoint (V : Type) where
  date : String
  val : V
  deriving DecidableEq, Repr

/-- The nested body of a successful metrics response:
asset ↦ metric ↦ data points.  The Rust `HashMap`s iterate in arbitrary
order; the model fixes one iteration order by using association lists
(no settled claim depends on intra-batch row order). -/
abbrev SymbolsData (V : Type) :=
  List (String × List (String × List (MetricPoint V)))

/-- One long-form row of the metrics DataFrame, with the date column
already parsed to a datetime (modelled as `Int` milliseconds). -/
structure MRow (V : Type) where
  date : Int
  asset : String
  metric : String
  value : V
  deriving DecidableEq, Repr

/-- Outcome of one batch request inside `fetch_batch`. -/
inductive BatchOutcome (V : Type) where
  | transportErr
  | badStatus (status : String) (text : String)
  | badBody
  | success (symbols_data : SymbolsData V)

/-- The record-flattening loop of `parse_response_to_dataframe`:
asset ↦ metric ↦ points flattened to (date, asset, metric, value)
tuples. -/
def flatten_records {V : Type} (symbols_data : SymbolsData V) :
    List (String × String × String × V) :=
  symbols_data.flatMap (fun am =>
    am.2.flatMap (fun mp =>
      mp.2.map (fun point => (point.date, am.1, mp.1, point.val))))

/-- `ArtemisClient::parse_response_to_dataframe`: an empty flattened
record set is a `DataFetch` error for the batch; otherwise the date
column is parsed to datetime with strict (`raise`) semantics — the first
unparsable date fails the batch with a Polars error. -/
def parse_response_to_dataframe {V : Type} (parseDate : String → Option Int)
    (symbols_data : SymbolsData V) : Except Err (List (MRow V)) :=
  let records := flatten_records symbols_data
  if records.isEmpty then
    .error (.dataFetch "No data points in Artemis API response")
  else
    let rec toRows : List (String × String × String × V) →
        Except Err (List (MRow V))
      | [] => .ok []
      | r :: rest =>
          match parseDate r.1 with
          | none => .error (.polars "could not parse date column")
          | some d =>
              match toRows rest with
              | .error e => .error e
              | .ok rows => .ok (⟨d, r.2.1, r.2.2.1, r.2.2.2⟩ :: rows)
    toRows records

/-- `ArtemisClient::fetch_batch` over a batch-outcome oracle keyed by the
batch's symbol list: transport failure, non-success status and
undeserializable body each yield a `DataFetch` error; a successful
response is converted by `parse_response_to_dataframe`. -/
def fetch_batch {V : Type} (parseDate : String → Option Int)
    (net : List String → BatchOutcome V) (batch : List String) :
    Except Err (List (MRow V)) :=
  match net batch with
  | .transportErr => .error (.dataFetch "Failed to fetch metrics batch")
  | .badStatus status text =>
      .error (.dataFetch ("Artemis API error " ++ status ++ ": " ++ text))
  | .badBody => .error (.dataFetch "Failed to parse metrics response")
  | .success symbols_data => parse_response_to_dataframe parseDate symbols_data

/-- `symbols.chunks(5)`: groups of five symbols, the last possibly
shorter. -/
def chunks5 : List String → List (List String)
  | [] => []
  | s :: rest => ((s :: rest).take 5) :: chunks5 ((s :: rest).drop 5)
termination_by l => l.length
decreasing_by
  simp
  omega

/-- One batch request as issued by `fetch_metrics_parallel`: the batch's
symbols, the comma-joined metric names, and the inclusive date range
(dates modelled as integer days). -/
structure MetricsRequest where
  symbols : List String
  metrics_str : String
  start_date : Int
  end_date : Int
  deriving DecidableEq, Repr

/-- `ArtemisClient::fetch_metrics_parallel`: empty symbols or metrics are
`InvalidInput`; otherwise the symbols are split into batches of five, one
request is issued per batch (the trace is the second component), failed
batches are dropped, and the call errors with "All batches failed, no
data retrieved" exactly when no batch survived, else returns the
vertical concatenation of the surviving batch frames in batch order. -/
def fetch_metrics_parallel {V : Type} (parseDate : String → Option Int)
    (net : List String → BatchOutcome V) (symbols metrics : List String)
    (start_date end_date : Int) :
    Except Err (List (MRow V)) × List MetricsRequest :=
  if symbols.isEmpty then
    (.error (.invalidInput "No symbols provided"), [])
  else if metrics.isEmpty then
    (.error (.invalidInput "No metrics provided"), [])
  else
    let batches := chunks5 symbols
    let requests := batches.map (fun b =>
      ⟨b, String.intercalate "," metrics, start_date, end_date⟩)
    let results := batches.map (fun b => fetch_batch parseDate net b)
    let dfs := results.filterMap (fun r => r.toOption)
    if dfs.isEmpty then
      (.error (.dataFetch "All batches failed, no data retrieved"), requests)
    else
      (.ok dfs.flatten, requests)

/-! ## Concrete instantiations used by witnesses and counterexamples -/

/-- A concrete value type for witnesses: Booleans printed as "1"/"0".
Stands in for `f64` with `to_string`; the Rust pair round-trips, and so
does this one. -/
def serB : Bool → String :=
  fun b => if b then "1" else "0"

/-- Parser matching `serB`; anything else is unparsable. -/
def parseB : String → Option Bool :=
  fun s => if s == "1" then some true else if s == "0" then some false else none

/-- A candle whose start timestamp is not numeric. -/
def badCandle : Candle :=
  ⟨"x", "", "", "", "1", "2"⟩

/-- A candle all of whose consumed fields are numeric. -/
def goodCandle : Candle :=
  ⟨"86400", "", "", "", "3", "4"⟩

/-- Network oracle for the C2 counterexample: the first window's page
holds the unparsable candle, the second window's page a good one; every
page succeeds on the first attempt. -/
def netC2 : Int → Int → Nat → Attempt :=
  fun s _ _ => if s == 0 then .success [badCandle] else .success [goodCandle]

/-- Network oracle for the C4 witness: every page succeeds and is empty. -/
def netC4 : Int → Int → Nat → Attempt :=
  fun _ _ _ => .success []

/-- Attempt oracle for the C5 witness: transport failure, then a
non-success status, then success. -/
def attEx : Nat → Attempt :=
  fun n => if n == 0 then .transportErr
           else if n == 1 then .badStatus
           else .success [goodCandle]

/-- Batch oracle for the C6/C7 witnesses: a batch containing the symbol
"bad" transport-fails, any other batch succeeds with one data point. -/
def netA : List String → BatchOutcome Bool :=
  fun batch =>
    if batch.contains "bad" then .transportErr
    else .success [("btc", [("mc", [⟨"5", true⟩])])]

/-- The rows `netA` yields for a surviving batch, after date parsing. -/
def netARows : List (MRow Bool) :=
  [⟨5, "btc", "mc", true⟩]

/-- A small executable numeric parser used to instantiate the abstract
`parseTs`/`parseF`/`parseDate` parameters in witnesses: maps the digit
strings occurring in the witness data to their values, everything else
(e.g. `"x"`) to `none`. -/
def parseNumEx : String → Option Int := fun s =>
  if s == "1" then some 1 else if s == "2" then some 2 else
  if s == "3" then some 3 else if s == "4" then some 4 else
  if s == "5" then some 5 else
  if s == "10" then some 10 else if s == "11" then some 11 else
  if s == "20" then some 20 else if s == "21" then some 21 else
  if s == "30" then some 30 else if s == "31" then some 31 else
  if s == "86400" then some 86400 else none

/-- Filesystem for the C10 witness: a stored time-series file with one
record whose `return` field does not parse and one fully parsable
record. -/
def fsC10 : FS :=
  [(ts_path "f" "r",
    [ts_header, ["2023-01-01", "x", "1"], ["2023-01-02", "1", "0"]])]

/-! ## Theorems: RunLogger / TimeSeriesStore claims -/

theorem fsGet_fsPut (fs : FS) (path : String) (file : CsvFile) :
    fsGet (fsPut fs path file) path = some file := by
  simp [fsGet, fsPut]

theorem save_rows_snd_none_iff {V : Type} (serV : V → String) :
    ∀ (ds : List String) (rs cs : List V),
      (save_rows serV ds rs cs).2 = none ↔
        ds.length ≤ rs.length ∧ ds.length ≤ cs.length := by
  intro ds
  induction ds with
  | nil => intro rs cs; simp [save_rows]
  | cons d ds ih =>
      intro rs cs
      cases rs with
      | nil => simp [save_rows]
      | cons r rs =>
          cases cs with
          | nil => simp [save_rows]
          | cons c cs => simpa [save_rows] using ih rs cs

theorem save_rows_snd_shape {V : Type} (serV : V → String) :
    ∀ (ds : List String) (rs cs : List V),
      (save_rows serV ds rs cs).2 = none ∨
        (save_rows serV ds rs cs).2 = some (.panicked "index out of bounds") := by
  intro ds
  induction ds with
  | nil => intro rs cs; simp [save_rows]
  | cons d ds ih =>
      intro rs cs
      cases rs with
      | nil => simp [save_rows]
      | cons r rs =>
          cases cs with
          | nil => simp [save_rows]
          | cons c cs => simpa [save_rows] using ih rs cs

theorem lts_rows_save_rows {V : Type} (serV : V → String)
    (parseV : String → Option V) (hV : ∀ v, parseV (serV v) = some v) :
    ∀ (ds : List String) (rs cs : List V),
      ds.length = rs.length → ds.length = cs.length →
      lts_rows parseV ts_header (save_rows serV ds rs cs).1 = .ok (ds, rs, cs) := by
  intro ds
  induction ds with
  | nil =>
      intro rs cs h1 h2
      cases rs with
      | nil =>
          cases cs with
          | nil => simp [save_rows, lts_rows]
          | cons c cs => simp at h2
      | cons r rs => simp at h1
  | cons d ds ih =>
      intro rs cs h1 h2
      cases rs with
      | nil => simp at h1
      | cons r rs =>
          cases cs with
          | nil => simp at h2
          | cons c cs =>
              have hrec := ih rs cs (by simpa using h1) (by simpa using h2)
              simp only [ts_header] at hrec
              simp [save_rows, lts_rows, ts_header, header_lookup, hV, hrec]

/-- C8: saving a time series and loading it back under the same
(factor, run) key returns the identical three sequences, given equal
lengths and a round-tripping value serialization (which Rust's
`f64::to_string` / `parse::<f64>` pair provides). -/
theorem save_load_roundtrip {V : Type} (serV : V → String)
    (parseV : String → Option V) (hV : ∀ v, parseV (serV v) = some v)
    (fs : FS) (factor run_id : String) (dates : List String)
    (returns cum : List V)
    (h1 : dates.length = returns.length) (h2 : dates.length = cum.length) :
    (save_time_series serV fs factor run_id dates returns cum).1 = .ok () ∧
    load_time_series parseV
      (save_time_series serV fs factor run_id dates returns cum).2
      factor run_id = .ok (dates, returns, cum) := by
  have hnone : (save_rows serV dates returns cum).2 = none :=
    (save_rows_snd_none_iff serV dates returns cum).mpr ⟨h1.le, h2.le⟩
  constructor
  · simp [save_time_series, hnone]
  · simp only [save_time_series, load_time_series, fsGet_fsPut]
    exact lts_rows_save_rows serV parseV hV dates returns cum h1 h2

/-- C8 witness: a concrete round trip through a two-row series. -/
theorem save_load_roundtrip_witness :
    (save_time_series serB [] "smb" "run1" ["2023-01-01", "2023-01-08"]
      [true, false] [false, true]).1 = .ok () ∧
    load_time_series parseB
      (save_time_series serB [] "smb" "run1" ["2023-01-01", "2023-01-08"]
        [true, false] [false, true]).2 "smb" "run1"
      = .ok (["2023-01-01", "2023-01-08"], [true, false], [false, true]) :=
  save_load_roundtrip serB parseB (by decide) [] "smb" "run1"
    ["2023-01-01", "2023-01-08"] [true, false] [false, true]
    (by decide) (by decide)

/-- C9: a factor with no summary file loads as the empty sequence, and a
(factor, run) pair with no time-series file fails with `NotFound`. -/
theorem missing_file_behavior {V : Type} (parseV : String → Option V)
    (fs : FS) (factor run_id : String)
    (h1 : fsGet fs (factor_path factor) = none)
    (h2 : fsGet fs (ts_path factor run_id) = none) :
    load_factor_logs parseV fs factor = .ok [] ∧
    load_time_series parseV fs factor run_id =
      .error (.notFound ("Time series file not found: " ++
        ts_path factor run_id)) := by
  constructor
  · simp [load_factor_logs, h1]
  · simp [load_time_series, h2]

/-- C9 witness: the empty logs directory. -/
theorem missing_file_behavior_witness :
    load_factor_logs parseB [] "nonexistent-factor" = .ok [] ∧
    load_time_series parseB [] "nonexistent-factor" "nonexistent-run" =
      .error (.notFound ("Time series file not found: " ++
        ts_path "nonexistent-factor" "nonexistent-run")) :=
  missing_file_behavior parseB [] "nonexistent-factor" "nonexistent-run"
    (by rfl) (by rfl)

theorem lts_rows_length {V : Type} (parseV : String → Option V)
    (header : List String) :
    ∀ (rows : List (List String)) (out : List String × List V × List V),
      lts_rows parseV header rows = .ok out →
      out.1.length = out.2.1.length ∧ out.1.length = out.2.2.length := by
  intro rows
  induction rows with
  | nil =>
      intro out h
      simp only [lts_rows, Except.ok.injEq] at h
      subst h; simp
  | cons row rest ih =>
      intro out h
      simp only [lts_rows] at h
      split at h
      · exact absurd h (by simp)
      · cases heq : lts_rows parseV header rest with
        | error e => rw [heq] at h; exact absurd h (by simp)
        | ok tr =>
            rw [heq] at h
            obtain ⟨ha, hb⟩ := ih tr heq
            cases hd : header_lookup header row "date" with
            | none =>
                simp only [hd] at h
                simp only [Except.ok.injEq] at h
                subst h; exact ⟨ha, hb⟩
            | some d =>
                cases hr : (header_lookup header row "return").bind parseV with
                | none =>
                    simp only [hd, hr] at h
                    simp only [Except.ok.injEq] at h
                    subst h; exact ⟨ha, hb⟩
                | some r =>
                    cases hc : (header_lookup header row "cumulative_return").bind
                        parseV with
                    | none =>
                        simp only [hd, hr, hc] at h
                        simp only [Except.ok.injEq] at h
                        subst h; exact ⟨ha, hb⟩
                    | some c =>
                        simp only [hd, hr, hc] at h
                        simp only [Except.ok.injEq] at h
                        subst h
                        simp_all

/-- C10: whenever `load_time_series` succeeds, the three returned
sequences have equal lengths — a record with a missing date or an
unparsable return/cumulative-return field is skipped whole, never in
part. -/
theorem load_time_series_aligned {V : Type} (parseV : String → Option V)
    (fs : FS) (factor run_id : String)
    (out : List String × List V × List V)
    (h : load_time_series parseV fs factor run_id = .ok out) :
    out.1.length = out.2.1.length ∧ out.1.length = out.2.2.length := by
  unfold load_time_series at h
  cases hf : fsGet fs (ts_path factor run_id) with
  | none => rw [hf] at h; exact absurd h (by simp)
  | some file =>
      rw [hf] at h
      cases file with
      | nil =>
          simp only [Except.ok.injEq] at h
          subst h; simp
      | cons header rows => exact lts_rows_length parseV header rows out h

/-- C10 witness: a stored file whose middle record has an unparsable
return field; the record is skipped whole and the sequences stay
aligned. -/
theorem load_time_series_aligned_witness :
    load_time_series parseB fsC10 "f" "r" = .ok (["2023-01-02"], [true], [false]) ∧
    (["2023-01-02"] : List String).length = ([true] : List Bool).length ∧
    (["2023-01-02"] : List String).length = ([false] : List Bool).length := by
  refine ⟨by rfl, ?_⟩
  exact load_time_series_aligned parseB fsC10 "f" "r"
    (["2023-01-02"], [true], [false]) (by rfl)

/-- C1 counterexample: a call with `dates` longer than both value
sequences does not fail with `InvalidInput` — it panics with an index out
of bounds — and a file (containing the header) has been written. -/
theorem save_time_series_mismatch_counterexample :
    (save_time_series serB [] "f" "r" ["2023-01-01"] [] []).1 =
      .error (.panicked "index out of bounds") ∧
    fsGet (save_time_series serB [] "f" "r" ["2023-01-01"] [] []).2
      (ts_path "f" "r") = some [ts_header] := by
  constructor
  · rfl
  · decide

/-- C1 (amended): `save_time_series` performs no length validation.  On a
length mismatch it never fails with `InvalidInput`: it always writes the
file (header included); it succeeds exactly when `dates` is no longer
than both value sequences (silently truncating them), and otherwise
panics with an index out of bounds. -/
theorem save_time_series_mismatch {V : Type} (serV : V → String) (fs : FS)
    (factor run_id : String) (dates : List String) (returns cum : List V)
    (_h : ¬ (dates.length = returns.length ∧ dates.length = cum.length)) :
    ((save_time_series serV fs factor run_id dates returns cum).1 = .ok () ∨
      (save_time_series serV fs factor run_id dates returns cum).1 =
        .error (.panicked "index out of bounds")) ∧
    ((save_time_series serV fs factor run_id dates returns cum).1 = .ok () ↔
      dates.length ≤ returns.length ∧ dates.length ≤ cum.length) ∧
    (fsGet (save_time_series serV fs factor run_id dates returns cum).2
      (ts_path factor run_id)).isSome = true := by
  refine ⟨?_, ?_, ?_⟩
  · rcases save_rows_snd_shape serV dates returns cum with hs | hs <;>
      simp [save_time_series, hs]
  · rcases save_rows_snd_shape serV dates returns cum with hs | hs
    · simp only [save_time_series]
      rw [hs]
      simpa using (save_rows_snd_none_iff serV dates returns cum).mp hs
    · simp only [save_time_series]
      rw [hs]
      constructor
      · intro hcon; exact absurd hcon (by simp)
      · intro hle
        have := (save_rows_snd_none_iff serV dates returns cum).mpr hle
        rw [hs] at this
        exact absurd this (by simp)
  · simp [save_time_series, fsGet_fsPut]

/-! ## Theorems: PriceFetcher pagination and retry claims -/

theorem get_candles_loop_trace (net : Int → Int → Nat → Attempt)
    (pid : String) (e s : Int) :
    (get_candles_loop net pid e s).2 = win_list s e := by
  rw [get_candles_loop, win_list]
  by_cases h : s ≤ e
  · simp only [dif_pos h]
    exact congrArg _ (get_candles_loop_trace net pid e _)
  · simp only [dif_neg h]
termination_by (e + 1 - s).toNat
decreasing_by
  simp [max_candles_per_request]
  omega

theorem win_list_length (s e : Int) (h : s ≤ e) :
    (win_list s e).length = ((e + 1 - s).toNat + 299) / 300 := by
  rw [win_list, dif_pos h]
  simp only [max_candles_per_request]
  by_cases h2 : e ≤ s + (300 - 1)
  · rw [min_eq_right h2, win_list, dif_neg (by omega)]
    simp only [List.length_cons, List.length_nil]
    omega
  · rw [min_eq_left (by omega)]
    have ih := win_list_length (s + (300 - 1) + 1) e (by omega)
    simp only [List.length_cons, ih]
    omega
termination_by (e + 1 - s).toNat
decreasing_by
  simp
  omega

theorem dayRange_cons (a b : Int) (h : a ≤ b) :
    dayRange a b = a :: dayRange (a + 1) b := by
  rw [dayRange, dif_pos h]

theorem dayRange_empty (a b : Int) (h : b < a) : dayRange a b = [] := by
  rw [dayRange, dif_neg (by omega)]

theorem dayRange_split (a m b : Int) (h1 : a ≤ m + 1) (h2 : m ≤ b) :
    dayRange a b = dayRange a m ++ dayRange (m + 1) b := by
  by_cases ha : a ≤ m
  · rw [dayRange_cons a b (by omega), dayRange_cons a m ha,
      dayRange_split (a + 1) m b (by omega) h2]
    simp
  · have hae : a = m + 1 := by omega
    rw [dayRange_empty a m (by omega)]
    rw [hae]
    simp
termination_by (m + 1 - a).toNat
decreasing_by
  omega

theorem win_list_cover (s e : Int) :
    ((win_list s e).flatMap fun w => dayRange w.1 w.2) = dayRange s e := by
  rw [win_list]
  by_cases h : s ≤ e
  · simp only [dif_pos h, List.flatMap_cons]
    rw [win_list_cover (min (s + (max_candles_per_request - 1)) e + 1) e]
    have hm1 : s ≤ min (s + (max_candles_per_request - 1)) e + 1 := by
      simp [max_candles_per_request]
      omega
    have hm2 : min (s + (max_candles_per_request - 1)) e ≤ e := min_le_right _ _
    exact (dayRange_split s (min (s + (max_candles_per_request - 1)) e) e
      (by omega) hm2).symm
  · simp only [dif_neg h, List.flatMap_nil]
    exact (dayRange_empty s e (by omega)).symm
termination_by (e + 1 - s).toNat
decreasing_by
  simp [max_candles_per_request]
  omega

theorem win_list_bounds (s e : Int) :
    ∀ w ∈ win_list s e, w.1 ≤ w.2 ∧ w.2 + 1 - w.1 ≤ 300 := by
  intro w hw
  rw [win_list] at hw
  by_cases h : s ≤ e
  · simp only [dif_pos h, List.mem_cons] at hw
    rcases hw with hw | hw
    · subst hw
      simp only [max_candles_per_request]
      constructor
      · simp; omega
      · simp; omega
    · exact win_list_bounds _ e w hw
  · simp [dif_neg h] at hw
termination_by (e + 1 - s).toNat
decreasing_by
  simp [max_candles_per_request]
  omega

/-- C4: for `start ≤ end`, `get_candles` issues one page request per
window of the window list, which has `ceil(days/300)` windows, each of at
most 300 days, whose covered days concatenate to exactly the inclusive
input range (no gaps, no overlaps). -/
theorem get_candles_pagination {V : Type} (parseTs : String → Option Int)
    (parseF : String → Option V)
    (su : List (PriceRow V) → List (PriceRow V))
    (net : Int → Int → Nat → Attempt) (pid : String) (s e : Int)
    (h : s ≤ e) :
    (get_candles parseTs parseF su net pid s e).2 = win_list s e ∧
    (win_list s e).length = ((e + 1 - s).toNat + 299) / 300 ∧
    ((win_list s e).flatMap fun w => dayRange w.1 w.2) = dayRange s e ∧
    ∀ w ∈ win_list s e, w.1 ≤ w.2 ∧ w.2 + 1 - w.1 ≤ 300 := by
  refine ⟨?_, win_list_length s e h, win_list_cover s e, win_list_bounds s e⟩
  simp only [get_candles]
  split <;> exact get_candles_loop_trace net pid e s

unseal win_list in
/-- C4 witness: the 351-day range `[0, 350]` splits into the two windows
`[0, 299]` and `[300, 350]`. -/
theorem get_candles_pagination_witness :
    win_list 0 350 = [(0, 299), (300, 350)] ∧
    ((get_candles parseNumEx parseNumEx id netC4 "BTC-USD" 0 350).2 =
      win_list 0 350 ∧
    (win_list 0 350).length = (((350 : Int) + 1 - 0).toNat + 299) / 300 ∧
    ((win_list 0 350).flatMap fun w => dayRange w.1 w.2) = dayRange 0 350 ∧
    ∀ w ∈ win_list 0 350, w.1 ≤ w.2 ∧ w.2 + 1 - w.1 ≤ 300) :=
  ⟨by rfl,
   get_candles_pagination parseNumEx parseNumEx id netC4 "BTC-USD" 0 350
     (by norm_num)⟩

theorem fetch_page_loop_congr (att g : Nat → Attempt) (pid : String)
    (n : Nat) (hn : n ≤ 2) (hg : ∀ i, i < 3 → g i = att i) :
    fetch_page_loop g pid n = fetch_page_loop att pid n := by
  conv_lhs => rw [fetch_page_loop]
  conv_rhs => rw [fetch_page_loop]
  rw [hg n (by omega)]
  cases hatt : att n with
  | success cs => rfl
  | badBody =>
      by_cases h2 : n ≥ max_attempts - 1
      · simp [h2]
      · have ih := fetch_page_loop_congr att g pid (n + 1)
          (by simp [max_attempts] at h2; omega) hg
        simp [h2, ih]
  | badStatus =>
      by_cases h2 : n ≥ max_attempts - 1
      · simp [h2]
      · have ih := fetch_page_loop_congr att g pid (n + 1)
          (by simp [max_attempts] at h2; omega) hg
        simp [h2, ih]
  | transportErr =>
      by_cases h2 : n ≥ max_attempts - 1
      · simp [h2]
      · have ih := fetch_page_loop_congr att g pid (n + 1)
          (by simp [max_attempts] at h2; omega) hg
        simp [h2, ih]
termination_by 2 - n
decreasing_by
  all_goals simp [max_attempts] at h2
  all_goals omega

/-- C5: a page fetch makes at most 3 attempts (its outcome depends only
on the first three oracle entries), and a page failing on the first two
attempts and succeeding on the third returns that page's candles with
exactly two induced backoff delays, `base·2` then `base·4` (base
100 ms). -/
theorem fetch_page_retry (att : Nat → Attempt) (pid : String)
    (cs : List Candle)
    (h0 : (att 0).isFail = true) (h1 : (att 1).isFail = true)
    (h2 : att 2 = .success cs) :
    fetch_candles_page att pid = (.ok cs, [100 * 2, 100 * 4]) ∧
    ∀ g : Nat → Attempt, (∀ i, i < 3 → g i = att i) →
      fetch_candles_page g pid = fetch_candles_page att pid := by
  constructor
  · cases ha0 : att 0 <;> rw [ha0] at h0 <;> simp [Attempt.isFail] at h0 <;>
    cases ha1 : att 1 <;> rw [ha1] at h1 <;> simp [Attempt.isFail] at h1 <;>
    simp [fetch_candles_page, fetch_page_loop, ha0, ha1, h2, max_attempts]
  · intro g hg
    exact fetch_page_loop_congr att g pid 0 (by omega) hg

/-- C5 witness: transport failure, then bad status, then success. -/
theorem fetch_page_retry_witness :
    fetch_candles_page attEx "BTC-USD" = (.ok [goodCandle], [100 * 2, 100 * 4]) :=
  (fetch_page_retry attEx "BTC-USD" [goodCandle] (by rfl) (by rfl) (by rfl)).1

/-! ## Theorems: candle parsing claims -/

theorem parse_candle_error_shape {V : Type} (parseTs : String → Option Int)
    (parseF : String → Option V)
    (c : Candle) (er : Err) (h : parse_candle parseTs parseF c = .error er) :
    ∃ msg, er = .dataFetch msg := by
  unfold parse_candle at h
  split at h
  · exact ⟨"Invalid timestamp", by injection h with h2; exact h2.symm⟩
  · split at h
    · exact ⟨"Invalid price", by injection h with h2; exact h2.symm⟩
    · split at h
      · exact ⟨"Invalid volume", by injection h with h2; exact h2.symm⟩
      · exact absurd h (by simp)

theorem parse_candles_error_of_mem {V : Type} (parseTs : String → Option Int)
    (parseF : String → Option V) (c : Candle) :
    ∀ (cs : List Candle), c ∈ cs →
      (∃ msg, parse_candle parseTs parseF c = .error (.dataFetch msg)) →
      ∃ msg, parse_candles parseTs parseF cs = .error (.dataFetch msg) := by
  intro cs
  induction cs with
  | nil => intro hmem; exact absurd hmem (by simp)
  | cons c0 rest ih =>
      intro hmem hbad
      cases he : parse_candle parseTs parseF c0 with
      | error er =>
          obtain ⟨msg, hmsg⟩ := parse_candle_error_shape parseTs parseF c0 er he
          exact ⟨msg, by simp [parse_candles, he, hmsg]⟩
      | ok r =>
          have hc : c ∈ rest := by
            rcases List.mem_cons.mp hmem with hce | hce
            · obtain ⟨msg, hmsg⟩ := hbad
              rw [hce] at hmsg
              rw [hmsg] at he
              exact absurd he (by simp)
            · exact hce
          obtain ⟨msg, hmsg⟩ := ih hc hbad
          exact ⟨msg, by simp [parse_candles, he, hmsg]⟩

unseal get_candles_loop fetch_page_loop in
/-- C2 counterexample: over the range `[0, 300]` (two pages) with the
first page containing one candle whose timestamp is non-numeric and the
second page one fully numeric candle, `get_candles` fails outright — the
second page's candle is not returned.  The Polars pipeline parameter
(here `id`) is never reached on this error path. -/
theorem get_candles_parse_abort_counterexample :
    get_candles parseNumEx parseNumEx id netC2 "BTC-USD" 0 300 =
      (.error (.dataFetch "Invalid timestamp"), [(0, 299), (300, 300)]) := by
  rfl

/-- C2 (amended): for every sort/unique pipeline behavior, a candle row
with a non-numeric field aborts the whole per-product fetch —
`get_candles` returns a `DataFetch` ("parse") error and no candle from
any page is surfaced; the failure is not retried: the window requests
issued are exactly the date-range windows, independent of page
contents. -/
theorem get_candles_parse_abort {V : Type} (parseTs : String → Option Int)
    (parseF : String → Option V)
    (su : List (PriceRow V) → List (PriceRow V))
    (net : Int → Int → Nat → Attempt) (pid : String) (s e : Int)
    (c : Candle) (hc : c ∈ (get_candles_loop net pid e s).1)
    (hbad : ∃ msg, parse_candle parseTs parseF c = .error (.dataFetch msg)) :
    (∃ msg, (get_candles parseTs parseF su net pid s e).1 =
      .error (.dataFetch msg)) ∧
    (get_candles parseTs parseF su net pid s e).2 = win_list s e := by
  have hne : (get_candles_loop net pid e s).1 ≠ [] := List.ne_nil_of_mem hc
  obtain ⟨msg, hmsg⟩ := parse_candles_error_of_mem parseTs parseF c
    (get_candles_loop net pid e s).1 hc hbad
  constructor
  · refine ⟨msg, ?_⟩
    simp [get_candles, hne, candles_to_dataframe, hmsg]
  · simp only [get_candles]
    split <;> exact get_candles_loop_trace net pid e s

unseal get_candles_loop fetch_page_loop in
/-- C2 witness for the amended statement: the same two-page scenario,
driven through the general theorem. -/
theorem get_candles_parse_abort_witness :
    (∃ msg, (get_candles parseNumEx parseNumEx id netC2 "BTC-USD" 0 300).1 =
      .error (.dataFetch msg)) ∧
    (get_candles parseNumEx parseNumEx id netC2 "BTC-USD" 0 300).2 =
      win_list 0 300 :=
  get_candles_parse_abort parseNumEx parseNumEx id netC2 "BTC-USD" 0 300
    badCandle (by decide) ⟨"Invalid timestamp", by rfl⟩

/-! ## Theorems: MetricsFetcher batching claims -/

theorem chunks5_eq_nil_iff (l : List String) : chunks5 l = [] ↔ l = [] := by
  cases l with
  | nil => simp [chunks5]
  | cons s rest => rw [chunks5]; simp

theorem chunks5_flatten : ∀ (l : List String), (chunks5 l).flatten = l
  | [] => by rw [chunks5]; rfl
  | s :: rest => by
      rw [chunks5]
      simp only [List.flatten_cons]
      rw [chunks5_flatten ((s :: rest).drop 5)]
      exact List.take_append_drop 5 (s :: rest)
termination_by l => l.length
decreasing_by
  simp
  omega

theorem chunks5_length : ∀ (l : List String),
    (chunks5 l).length = (l.length + 4) / 5
  | [] => by rw [chunks5]; rfl
  | s :: rest => by
      rw [chunks5]
      simp only [List.length_cons]
      rw [chunks5_length ((s :: rest).drop 5)]
      simp only [List.length_drop, List.length_cons]
      omega
termination_by l => l.length
decreasing_by
  simp
  omega

theorem chunks5_mem_props : ∀ (l : List String), ∀ b ∈ chunks5 l,
    b ≠ [] ∧ b.length ≤ 5
  | [] => by rw [chunks5]; simp
  | s :: rest => by
      rw [chunks5]
      intro b hb
      rcases List.mem_cons.mp hb with hbe | hbm
      · subst hbe
        constructor
        · simp
        · simp only [List.length_take]
          omega
      · exact chunks5_mem_props ((s :: rest).drop 5) b hbm
termination_by l => l.length
decreasing_by
  simp
  omega

theorem chunks5_full_size : ∀ (l : List String) (i : Nat),
    i + 1 < (chunks5 l).length → ((chunks5 l).getD i []).length = 5
  | [] => by rw [chunks5]; simp
  | s :: rest => by
      rw [chunks5]
      intro i hi
      cases i with
      | zero =>
          have hd : (s :: rest).drop 5 ≠ [] := by
            intro hnil
            rw [hnil, chunks5] at hi
            simp at hi
          have hlen : 5 < (s :: rest).length := by
            by_contra hle
            exact hd (List.drop_eq_nil_of_le (by omega))
          simp only [List.getD_cons_zero, List.length_take]
          omega
      | succ j =>
          simp only [List.getD_cons_succ]
          exact chunks5_full_size ((s :: rest).drop 5) j
            (by simpa using hi)
termination_by l => l.length
decreasing_by
  simp
  omega

/-- C6: with non-empty symbols and metrics, `fetch_metrics_parallel`
issues exactly one request per batch of `symbols.chunks(5)` —
`ceil(|symbols|/5)` requests — each carrying the comma-joined full
metrics list and the inclusive date range; the batches are non-empty, of
size at most 5 (exactly 5 except possibly the last), and concatenate
back to the symbol list. -/
theorem fetch_metrics_requests {V : Type} (parseDate : String → Option Int)
    (net : List String → BatchOutcome V) (symbols metrics : List String)
    (s e : Int) (hs : symbols ≠ []) (hm : metrics ≠ []) :
    (fetch_metrics_parallel parseDate net symbols metrics s e).2 =
      (chunks5 symbols).map
        (fun b => ⟨b, String.intercalate "," metrics, s, e⟩) ∧
    (chunks5 symbols).length = (symbols.length + 4) / 5 ∧
    (chunks5 symbols).flatten = symbols ∧
    (∀ b ∈ chunks5 symbols, b ≠ [] ∧ b.length ≤ 5) ∧
    (∀ i, i + 1 < (chunks5 symbols).length →
      ((chunks5 symbols).getD i []).length = 5) := by
  refine ⟨?_, chunks5_length symbols, chunks5_flatten symbols,
    chunks5_mem_props symbols, chunks5_full_size symbols⟩
  simp only [fetch_metrics_parallel, List.isEmpty_eq_true, hs, hm,
    if_false]
  split <;> rfl

unseal chunks5 in
/-- C6 witness: six symbols with two metrics split into one full batch of
five and one singleton batch. -/
theorem fetch_metrics_requests_witness :
    chunks5 ["s1", "s2", "s3", "s4", "s5", "s6"] =
      [["s1", "s2", "s3", "s4", "s5"], ["s6"]] ∧
    ((fetch_metrics_parallel parseNumEx netA
        ["s1", "s2", "s3", "s4", "s5", "s6"] ["mc", "fees"] 0 9).2 =
      (chunks5 ["s1", "s2", "s3", "s4", "s5", "s6"]).map
        (fun b => ⟨b, String.intercalate "," ["mc", "fees"], 0, 9⟩) ∧
    (chunks5 ["s1", "s2", "s3", "s4", "s5", "s6"]).length =
      ((["s1", "s2", "s3", "s4", "s5", "s6"] : List String).length + 4) / 5 ∧
    (chunks5 ["s1", "s2", "s3", "s4", "s5", "s6"]).flatten =
      ["s1", "s2", "s3", "s4", "s5", "s6"] ∧
    (∀ b ∈ chunks5 ["s1", "s2", "s3", "s4", "s5", "s6"],
      b ≠ [] ∧ b.length ≤ 5) ∧
    (∀ i, i + 1 < (chunks5 ["s1", "s2", "s3", "s4", "s5", "s6"]).length →
      ((chunks5 ["s1", "s2", "s3", "s4", "s5", "s6"]).getD i []).length = 5)) :=
  ⟨by rfl,
   fetch_metrics_requests parseNumEx netA ["s1", "s2", "s3", "s4", "s5", "s6"]
     ["mc", "fees"] 0 9 (by simp) (by simp)⟩

/-- C7: with non-empty symbols and metrics, a failing batch is dropped
without aborting its siblings: the call returns the concatenation of the
surviving batches' tables (in batch order), and fails — with the
`DataFetch` error "All batches failed, no data retrieved" — precisely
when every batch failed. -/
theorem fetch_metrics_failures {V : Type} (parseDate : String → Option Int)
    (net : List String → BatchOutcome V) (symbols metrics : List String)
    (s e : Int) (hs : symbols ≠ []) (hm : metrics ≠ []) :
    ((∀ b ∈ chunks5 symbols, (fetch_batch parseDate net b).toOption = none) →
      (fetch_metrics_parallel parseDate net symbols metrics s e).1 =
        .error (.dataFetch "All batches failed, no data retrieved")) ∧
    ((∃ b ∈ chunks5 symbols, (fetch_batch parseDate net b).toOption ≠ none) →
      (fetch_metrics_parallel parseDate net symbols metrics s e).1 =
        .ok (((chunks5 symbols).map (fun b => fetch_batch parseDate net b)).filterMap
          (fun r => r.toOption)).flatten) := by
  constructor
  · intro hall
    have hnil : ((chunks5 symbols).map
        (fun b => fetch_batch parseDate net b)).filterMap
        (fun r => r.toOption) = [] := by
      rw [List.filterMap_eq_nil_iff]
      intro r hr
      obtain ⟨b, hb, hbe⟩ := List.mem_map.mp hr
      rw [← hbe]
      exact hall b hb
    simp [fetch_metrics_parallel, hs, hm, hnil]
  · intro hsome
    obtain ⟨b, hb, hbne⟩ := hsome
    have hne : ((chunks5 symbols).map
        (fun b => fetch_batch parseDate net b)).filterMap
        (fun r => r.toOption) ≠ [] := by
      intro hnil
      rw [List.filterMap_eq_nil_iff] at hnil
      exact hbne (hnil _ (List.mem_map_of_mem _ hb))
    simp only [fetch_metrics_parallel]
    rw [if_neg (by simpa using hs), if_neg (by simpa using hm),
      if_neg (by simpa using hne)]

unseal chunks5 in
/-- C7 witness: six symbols where the second batch (containing "bad")
transport-fails; the call succeeds with exactly the first batch's rows. -/
theorem fetch_metrics_failures_witness :
    (fetch_metrics_parallel parseNumEx netA
        ["btc", "a", "b", "c", "d", "bad"] ["mc"] 0 9).1 = .ok netARows ∧
    ((fetch_metrics_parallel parseNumEx netA
        ["btc", "a", "b", "c", "d", "bad"] ["mc"] 0 9).1 =
      .ok (((chunks5 ["btc", "a", "b", "c", "d", "bad"]).map
        (fun b => fetch_batch parseNumEx netA b)).filterMap
          (fun r => r.toOption)).flatten) :=
  ⟨by rfl,
   (fetch_metrics_failures parseNumEx netA ["btc", "a", "b", "c", "d", "bad"]
     ["mc"] 0 9 (by simp) (by simp)).2
     ⟨["btc", "a", "b", "c", "d"], by rw [chunks5]; simp, by decide⟩⟩

/-- C1 witness for the amended statement: a concrete mismatched call
(`dates` has two entries, `returns` one, `cum` three). -/
theorem save_time_series_mismatch_witness :
    ((save_time_series serB [] "f" "r" ["a", "b"] [true] [true, false, true]).1
        = .ok () ∨
      (save_time_series serB [] "f" "r" ["a", "b"] [true] [true, false, true]).1
        = .error (.panicked "index out of bounds")) ∧
    ((save_time_series serB [] "f" "r" ["a", "b"] [true] [true, false, true]).1
        = .ok () ↔
      (["a", "b"] : List String).length ≤ ([true] : List Bool).length ∧
      (["a", "b"] : List String).length ≤
        ([true, false, true] : List Bool).length) ∧
    (fsGet (save_time_series serB [] "f" "r" ["a", "b"] [true]
      [true, false, true]).2 (ts_path "f" "r")).isSome = true :=
  save_time_series_mismatch serB [] "f" "r" ["a", "b"] [true]
    [true, false, true] (by decide)
